import Mathlib

/-!
# Verification of the orphaned-scans reconciliation and adoption scripts

Shallow embedding of `orphaned_sessions.py` and `adopt_orphans.py`.

Modelling conventions:
* Instants (directory modification times and the parsed `--start-date` /
  `--end-date` timestamps) are integers.
* The archive filesystem is a snapshot: the list of `{project}/arc001`
  directories that exist under `/data/xnat/archive`, each with its directory
  entries (session directories) in on-disk (readdir) order together with their
  modification times.  The shell glob `/data/xnat/archive/*/arc001` sorts the
  matched pathnames; `find` then lists each `arc001`'s children in readdir
  order.
* Remote behaviour is a `Resolver`: a function from (instance base URL,
  project, session label) to the HTTP outcome of the experiment lookup.
* Parsed JSON bodies are modelled by an inductive `Json` type with Python
  truthiness (`bool(x)`).
* Side effects (prints, directory moves, HTTP posts, CSV writes, emails) are
  collected as explicit effect traces.
-/

namespace OrphanedScans

/-- Parsed JSON values, as returned by `response.json()`. -/
inductive Json where
  | null : Json
  | bool (b : Bool) : Json
  | num (n : Int) : Json
  | str (s : String) : Json
  | arr (elts : List Json) : Json
  | obj (fields : List (String × Json)) : Json

/-- Python truthiness `bool(x)` of a parsed JSON value: `None`, `False`, `0`,
`""`, `[]` and `{}` are falsy, everything else truthy. -/
def Json.truthy : Json → Bool
  | .null => false
  | .bool b => b
  | .num n => n != 0
  | .str s => !s.isEmpty
  | .arr elts => !elts.isEmpty
  | .obj fields => !fields.isEmpty

/-- Outcome of one `session.get(url)` lookup against one XNAT instance:
a 2xx response whose body parses as JSON, an HTTP 404, another HTTP error
status (`raise_for_status` raises), or any other failure (timeout, connection
error, malformed body, ...). -/
inductive XResponse where
  | success (body : Json) : XResponse
  | notFound : XResponse
  | httpError (code : Nat) : XResponse
  | netError (msg : String) : XResponse

/-- `query_xnat_metadata` (orphaned_sessions.py:58-80): returns the parsed
JSON on success; returns `None` on a 404; and also returns `None` (after
printing) on any other HTTP error or exception. -/
def query_xnat_metadata : XResponse → Option Json
  | .success body => some body
  | .notFound => none
  | .httpError _ => none
  | .netError _ => none

/-- The configured instance list (orphaned_sessions.py:12-15); the first
entry is the primary instance. -/
def XNAT_INSTANCES : List String :=
  ["https://xnat2.bu.edu", "https://xnat.bu.edu"]

/-- Remote behaviour for a run: instance base URL, project id and session
label determine the lookup outcome. -/
abbrev Resolver := String → String → String → XResponse

/-- One session directory entry inside a `{project}/arc001` directory:
its name and its modification time. -/
structure SessEntry where
  name : String
  mtime : Int
deriving DecidableEq, Repr

/-- One `{project}/arc001` directory that exists on disk, with its child
session directories in readdir order. -/
structure ProjDir where
  project : String
  sessions : List SessEntry
deriving DecidableEq, Repr

/-- Snapshot of the archive: the `{project}/arc001` directories, in arbitrary
(pre-glob) order. -/
abbrev Snapshot := List ProjDir

/-- The pathname the glob `/data/xnat/archive/*/arc001` produces for a
project. -/
def arcPath (project : String) : String :=
  "/data/xnat/archive/" ++ project ++ "/arc001"

/-- Lexicographic comparison of character lists: the order the shell's
sorted glob expansion imposes on pathnames (C-locale byte order, which on
these path characters coincides with code-point order). -/
def charsLe : List Char → List Char → Bool
  | [], _ => true
  | _ :: _, [] => false
  | a :: as, b :: bs =>
    if a < b then true
    else if b < a then false
    else charsLe as bs

/-- Executable lexicographic `≤` on strings. -/
def strLe (a b : String) : Bool :=
  charsLe a.data b.data

/-- Boolean comparator on glob results: the shell sorts the expanded
pathnames lexicographically. -/
def globLe (a b : ProjDir) : Bool :=
  strLe (arcPath a.project) (arcPath b.project)

/-- Insertion step for the glob's sorted expansion. -/
def globInsert (a : ProjDir) : List ProjDir → List ProjDir
  | [] => [a]
  | b :: l => if globLe a b then a :: b :: l else b :: globInsert a l

/-- The shell glob's sorted expansion of `/data/xnat/archive/*/arc001`. -/
def globSort : List ProjDir → List ProjDir
  | [] => []
  | a :: l => globInsert a (globSort l)

/-- One line of `find` output, kept structured: project, session directory
name and the session directory's mtime.  The actual path string is
`/data/xnat/archive/{project}/arc001/{session}`. -/
structure FoundDir where
  project : String
  session : String
  mtime : Int
deriving DecidableEq, Repr

/-- The full path of a found session directory. -/
def FoundDir.path (d : FoundDir) : String :=
  arcPath d.project ++ "/" ++ d.session

/-- `find`'s `-newermt start ! -newermt end` predicate: modification time
strictly newer than `startT` and not strictly newer than `endT`. -/
def inWindow (startT endT t : Int) : Bool :=
  decide (startT < t) && !(decide (endT < t))

/-- `query_sessions` (orphaned_sessions.py:82-92): runs
`find /data/xnat/archive/*/arc001 -mindepth 1 -maxdepth 1 -type d
-newermt start ! -newermt end` via `subprocess.check_output`.  If the glob
matches no `{project}/arc001` directory the literal pattern reaches `find`,
which exits nonzero, and `check_output` raises `CalledProcessError` (the
error case).  Otherwise the matched directories are visited in glob (sorted
pathname) order, each one's children in readdir order, filtered by the
`-newermt` window; empty output becomes the empty list. -/
def query_sessions (snap : Snapshot) (startT endT : Int) :
    Except String (List FoundDir) :=
  if snap.isEmpty then
    .error "CalledProcessError: find: '/data/xnat/archive/*/arc001': No such file or directory"
  else
    .ok ((globSort snap).flatMap fun p =>
      (p.sessions.filter fun s => inWindow startT endT s.mtime).map fun s =>
        { project := p.project, session := s.name, mtime := s.mtime })

/-- Python `bool(meta)` on the result of `query_xnat_metadata`: `None` is
falsy, otherwise the truthiness of the parsed JSON body. -/
def presenceBool : Option Json → Bool
  | none => false
  | some j => j.truthy

/-- One row of the session data (orphaned_sessions.py:122-129): the dict
appended per directory, with one presence column per configured instance. -/
structure SessionRecord where
  project : String
  session : String
  path : String
  last_modified : Int
  metadata_xnat2 : Bool
  metadata_xnat : Bool
deriving DecidableEq, Repr

/-- The loop body of `find_sessions_and_metadata` for one directory `d`:
query every configured instance (collecting `None` on failure), then build
the row with `bool(metadata_from_instances[0])` and
`bool(metadata_from_instances[1])`. -/
def mkRecord (resolver : Resolver) (d : FoundDir) : SessionRecord :=
  let metadata_from_instances :=
    XNAT_INSTANCES.map fun base_url =>
      query_xnat_metadata (resolver base_url d.project d.session)
  { project := d.project
    session := d.session
    path := d.path
    last_modified := d.mtime
    metadata_xnat2 := presenceBool (metadata_from_instances.getD 0 none)
    metadata_xnat := presenceBool (metadata_from_instances.getD 1 none) }

/-- `find_sessions_and_metadata` (orphaned_sessions.py:94-131): enumerate
the windowed session directories and build one record per directory; an
error from `query_sessions` propagates (it is not caught). -/
def find_sessions_and_metadata (resolver : Resolver) (snap : Snapshot)
    (startT endT : Int) : Except String (List SessionRecord) :=
  (query_sessions snap startT endT).map fun dirs => dirs.map (mkRecord resolver)

/-- The orphan count of `main` (orphaned_sessions.py:189):
`(df['metadata_xnat2'] == False).sum()`. -/
def num_orphans (records : List SessionRecord) : Nat :=
  (records.filter fun r => r.metadata_xnat2 == false).length

/-- The presence value a record carries for a configured instance:
`metadata_xnat2` is the column for `XNAT_INSTANCES[0]`, `metadata_xnat` the
column for `XNAT_INSTANCES[1]`; other names have no column. -/
def instancePresence (r : SessionRecord) (inst : String) : Option Bool :=
  if inst = XNAT_INSTANCES.getD 0 "" then some r.metadata_xnat2
  else if inst = XNAT_INSTANCES.getD 1 "" then some r.metadata_xnat
  else none

/-! ## Credentials (adopt_orphans.py `get_credentials`,
orphaned_sessions.py `read_xnat_auth`) -/

/-- A parsed INI file as `configparser` sees it: sections, each a list of
key/value options. -/
structure IniConfig where
  sections : List (String × List (String × String))

/-- `config[sec][key]` / `config.get(sec, key)` lookup. -/
def IniConfig.get (c : IniConfig) (sec key : String) : Option String :=
  (c.sections.lookup sec).bind fun opts => opts.lookup key

/-- `get_credentials` (adopt_orphans.py:7-17): a missing file raises
`FileNotFoundError`; a missing `[auth]` section or missing `username` /
`password` key raises `KeyError` (re-raised with a message).  `none` for the
config argument models a file that does not exist. -/
def get_credentials (config : Option IniConfig) :
    Except String (String × String) :=
  match config with
  | none => .error "Credentials file not found"
  | some c =>
    match c.get "auth" "username", c.get "auth" "password" with
    | some username, some password => .ok (username, password)
    | _, _ => .error "Missing key in [auth] section of config file."

/-- `read_xnat_auth` (orphaned_sessions.py:19-47): a missing file raises
`FileNotFoundError`; a missing `[auth]` section raises `ValueError`; a
missing `username` / `password` option raises `ValueError`. -/
def read_xnat_auth (config : Option IniConfig) :
    Except String (String × String) :=
  match config with
  | none => .error "Authentication file not found."
  | some c =>
    if (c.sections.lookup "auth").isNone then
      .error "Section [auth] not found in auth file."
    else
      match c.get "auth" "username", c.get "auth" "password" with
      | some username, some password => .ok (username, password)
      | _, _ => .error "Missing username or password in auth file"

/-! ## Adoption workflow (adopt_orphans.py `main`) -/

/-- Observable side effects of one `adopt_orphans.py` invocation. -/
inductive AEffect where
  | output (msg : String) : AEffect
  | makedirs (path : String) : AEffect
  | move (src dst : String) : AEffect
  | httpPost (url : String) : AEffect

/-- CLI arguments of `adopt_orphans.py` after parsing: the absolute local
DICOM directory, the project id, the server URL (trailing `/` already
stripped), the inbox base and the parsed credentials file (`none` =
missing). -/
structure AdoptArgs where
  local_dicom_dir : String
  project : String
  xnat_url : String
  inbox_base : String
  config : Option IniConfig

/-- Environment of one invocation: whether `shutil.move` raises, and the
behaviour of the import endpoint (`none` = the POST raises an exception,
`some (status, text)` = a response). -/
structure AdoptWorld where
  moveRaises : Bool
  importResponse : Option (Nat × String)

/-- Python `str.rstrip('/')`. -/
def rstripSlash (s : String) : String :=
  String.mk (s.data.reverse.dropWhile (fun c => c = '/')).reverse

/-- `os.path.basename`: the component after the last `/`. -/
def basename (s : String) : String :=
  String.mk (s.data.reverse.takeWhile (fun c => c != '/')).reverse

/-- `os.path.dirname`: everything before the last `/` (empty if there is
none). -/
def dirname (s : String) : String :=
  String.mk ((s.data.reverse.dropWhile (fun c => c != '/')).drop 1).reverse

/-- `shutil.move src dst` over a filesystem modelled as the list of existing
directory paths: fails if the environment says the move raises or if the
source does not exist; on success the data now lives at `dst` and no longer
at `src`. -/
def shutil_move (world : AdoptWorld) (fs : List String) (src dst : String) :
    Except String (List String) :=
  if world.moveRaises then .error "shutil.move raised"
  else if src ∈ fs then .ok (dst :: fs.erase src)
  else .error ("No such file or directory: " ++ src)

/-- The inbox destination (adopt_orphans.py:58-59):
`os.path.join(inbox_base, project_id, basename(local_dicom_dir.rstrip('/')))`. -/
def dest_inbox_dir (args : AdoptArgs) : String :=
  args.inbox_base ++ "/" ++ args.project ++ "/" ++
    basename (rstripSlash args.local_dicom_dir)

/-- The import endpoint URL (adopt_orphans.py:69-75). -/
def import_api_url (xnat_url project_id dest_inbox_dir : String) : String :=
  xnat_url ++ "/data/services/import?import-handler=inbox" ++
    "&cleanupAfterImport=true&PROJECT_ID=" ++ project_id ++
    "&path=" ++ dest_inbox_dir

/-- `main` of adopt_orphans.py (lines 19-91), from the point the arguments
are parsed: load credentials (abort on failure), compute the inbox
destination, `os.makedirs` its parent, `shutil.move` the directory (abort on
failure), then POST the import request and report the outcome.  Returns the
effect trace and the resulting filesystem. -/
def adopt_main (args : AdoptArgs) (world : AdoptWorld) (fs : List String) :
    List AEffect × List String :=
  match get_credentials args.config with
  | .error e => ([.output ("Error loading XNAT credentials: " ++ e)], fs)
  | .ok (_xnat_user, _xnat_pass) =>
    match shutil_move world fs args.local_dicom_dir (dest_inbox_dir args) with
    | .error e =>
      ([.makedirs (dirname (dest_inbox_dir args)),
        .output ("ERROR moving directory: " ++ e)], fs)
    | .ok fs' =>
      match world.importResponse with
      | none =>
        ([.makedirs (dirname (dest_inbox_dir args)),
          .move args.local_dicom_dir (dest_inbox_dir args),
          .output ("Moved " ++ args.local_dicom_dir ++ " to " ++
            dest_inbox_dir args),
          .httpPost (import_api_url args.xnat_url args.project
            (dest_inbox_dir args)),
          .output "ERROR calling API"], fs')
      | some (code, text) =>
        if code = 200 ∨ code = 202 then
          ([.makedirs (dirname (dest_inbox_dir args)),
            .move args.local_dicom_dir (dest_inbox_dir args),
            .output ("Moved " ++ args.local_dicom_dir ++ " to " ++
              dest_inbox_dir args),
            .httpPost (import_api_url args.xnat_url args.project
              (dest_inbox_dir args)),
            .output "Import request successful.", .output text], fs')
        else
          ([.makedirs (dirname (dest_inbox_dir args)),
            .move args.local_dicom_dir (dest_inbox_dir args),
            .output ("Moved " ++ args.local_dicom_dir ++ " to " ++
              dest_inbox_dir args),
            .httpPost (import_api_url args.xnat_url args.project
              (dest_inbox_dir args)),
            .output ("Import request failed (" ++ toString code ++ "): " ++
              text)], fs')

/-! ## Reconciliation entry point (orphaned_sessions.py `main`) -/

/-- Observable side effects of one `orphaned_sessions.py` run. -/
inductive OEffect where
  | output (msg : String) : OEffect
  | findCmd : OEffect
  | csvWrite (name : String) : OEffect
  | email (subject body : String) : OEffect
  | crash (msg : String) : OEffect

/-- `main` of orphaned_sessions.py (lines 153-198), from the point the date
window is fixed: read credentials (abort on failure), enumerate and resolve
(`find_sessions_and_metadata`; an enumeration error is uncaught and crashes
the run), then either email "no scans found" or write the CSV and email the
orphan summary. -/
def orphan_main (config : Option IniConfig) (resolver : Resolver)
    (snap : Snapshot) (startT endT : Int) : List OEffect :=
  match read_xnat_auth config with
  | .error e => [.output ("Error reading authentication credentials: " ++ e)]
  | .ok _auth =>
    match find_sessions_and_metadata resolver snap startT endT with
    | .error e => [.findCmd, .crash e]
    | .ok data =>
      if data.isEmpty then
        [.findCmd, .output "No scans found on disk.",
         .email "Weekly Orphaned Scan Report" "No scans found on disk."]
      else
        let n := num_orphans data
        if 0 < n then
          [.findCmd, .csvWrite "orphaned_sessions.csv",
           .output (toString n ++ " orphans found out of " ++
                    toString data.length ++ " scans found on disk."),
           .email "Weekly Orphaned Scan Report"
             (toString n ++ " orphans found out of " ++
              toString data.length ++ " scans found on disk.")]
        else
          [.findCmd, .csvWrite "orphaned_sessions.csv",
           .output ("No orphans found out of " ++ toString data.length ++
                    " scans on disk."),
           .email "Weekly Orphaned Scan Report"
             ("No orphans found out of " ++ toString data.length ++
              " scans on disk.")]

/-! ## Derived predicates used in the statements -/

/-- Glob pathname ordering on `{project}/arc001` directories: the order the
shell's sorted glob expansion imposes. -/
def projLe (a b : ProjDir) : Prop :=
  globLe a b = true

/-- The spec's report order: lexicographic by project, then by session. -/
def lexByProjSess (a b : SessionRecord) : Prop :=
  a.project < b.project ∨ (a.project = b.project ∧ a.session ≤ b.session)

/-- The primary instance: the first entry of `XNAT_INSTANCES`. -/
def primaryInstance : String := XNAT_INSTANCES.getD 0 ""

/-- An orphan in the sense of `main` (orphaned_sessions.py:189): the record's
`metadata_xnat2` column is `False`. -/
def isOrphanRecord (r : SessionRecord) : Prop :=
  r.metadata_xnat2 = false

/-- The import step failed: the POST raised an exception, or the response
status is outside the accepted set `{200, 202}`. -/
def importFailed (world : AdoptWorld) : Prop :=
  match world.importResponse with
  | none => True
  | some (code, _) => code ≠ 200 ∧ code ≠ 202

/-- A broken credentials source: the file is missing, or the `[auth]`
section is absent, or its `username` / `password` key is absent. -/
def credsBroken : Option IniConfig → Prop
  | none => True
  | some c =>
    (c.sections.lookup "auth") = none ∨
      c.get "auth" "username" = none ∨ c.get "auth" "password" = none

end OrphanedScans

namespace OrphanedScans

/-! ## Helper lemmas -/

theorem mem_globInsert {a x : ProjDir} {l : List ProjDir} :
    x ∈ globInsert a l ↔ x = a ∨ x ∈ l := by
  induction l with
  | nil => simp [globInsert]
  | cons b l ih =>
    simp only [globInsert]
    cases hab : globLe a b
    · simp [ih]
      tauto
    · simp

theorem mem_globSort {x : ProjDir} {l : List ProjDir} :
    x ∈ globSort l ↔ x ∈ l := by
  induction l with
  | nil => simp [globSort]
  | cons a l ih => simp [globSort, mem_globInsert, ih]

theorem inWindow_iff {startT endT t : Int} :
    inWindow startT endT t = true ↔ startT < t ∧ t ≤ endT := by
  simp [inWindow, not_lt]

theorem mem_query_sessions {snap : Snapshot} {startT endT : Int}
    {dirs : List FoundDir}
    (h : query_sessions snap startT endT = Except.ok dirs) (d : FoundDir) :
    d ∈ dirs ↔ ∃ p ∈ snap, p.project = d.project ∧
      (⟨d.session, d.mtime⟩ : SessEntry) ∈ p.sessions ∧
      startT < d.mtime ∧ d.mtime ≤ endT := by
  unfold query_sessions at h
  split at h
  · exact absurd h (by simp)
  · obtain rfl : _ = dirs := Except.ok.inj h
    obtain ⟨dp, ds, dt⟩ := d
    simp only [List.mem_flatMap, List.mem_map, List.mem_filter, mem_globSort]
    constructor
    · rintro ⟨p, hp, s, ⟨hs, hw⟩, heq⟩
      obtain ⟨sn, st⟩ := s
      injection heq with e1 e2 e3
      subst e1
      subst e2
      subst e3
      rcases inWindow_iff.mp hw with ⟨h1, h2⟩
      exact ⟨p, hp, rfl, hs, h1, h2⟩
    · rintro ⟨p, hp, hproj, hs, h1, h2⟩
      refine ⟨p, hp, ⟨ds, dt⟩, ⟨hs, inWindow_iff.mpr ⟨h1, h2⟩⟩, ?_⟩
      simp [hproj]

end OrphanedScans

namespace OrphanedScans

/-! ## Claim C3: window boundary semantics -/

/-- C3 counterexample: the claim states the window is `[start, end)`
(mtime equal to `start` included, equal to `end` excluded).  On the code,
`find -newermt start ! -newermt end` is strict at `start` and inclusive at
`end`: with window `(0, 10)` a session of mtime `0` is *not* returned even
though `0 ≤ 0 < 10`, and a session of mtime `10` *is* returned even though
`¬ (10 < 10)`. -/
theorem C3_counterexample :
    query_sessions [⟨"ProjectA", [⟨"Sess1", 0⟩]⟩] 0 10 = Except.ok [] ∧
    ((0 : Int) ≤ 0 ∧ (0 : Int) < 10) ∧
    query_sessions [⟨"ProjectA", [⟨"Sess2", 10⟩]⟩] 0 10 =
      Except.ok [⟨"ProjectA", "Sess2", 10⟩] ∧
    ¬ ((10 : Int) < 10) :=
  ⟨rfl, by decide, rfl, by decide⟩

/-- C3 (amended): windowed enumeration returns a session of modification
time `t` iff `start < t ≤ end` — a session with `t` equal to `start` is
excluded and a session with `t` equal to `end` is included (`find`'s
`-newermt start ! -newermt end` predicate). -/
theorem C3_window_membership (snap : Snapshot) (startT endT : Int)
    (dirs : List FoundDir)
    (h : query_sessions snap startT endT = Except.ok dirs) (d : FoundDir) :
    d ∈ dirs ↔ ∃ p ∈ snap, p.project = d.project ∧
      (⟨d.session, d.mtime⟩ : SessEntry) ∈ p.sessions ∧
      startT < d.mtime ∧ d.mtime ≤ endT :=
  mem_query_sessions h d

/-- C3 witness: the amended membership equivalence instantiated on a
one-session snapshot with mtime `5` and window `(0, 10]`. -/
theorem C3_window_membership_witness :
    query_sessions [⟨"P", [⟨"s", 5⟩]⟩] 0 10 = Except.ok [⟨"P", "s", 5⟩] ∧
    ((⟨"P", "s", 5⟩ : FoundDir) ∈ ([⟨"P", "s", 5⟩] : List FoundDir) ↔
      ∃ p ∈ ([⟨"P", [⟨"s", 5⟩]⟩] : Snapshot), p.project = "P" ∧
        (⟨"s", 5⟩ : SessEntry) ∈ p.sessions ∧ (0 : Int) < 5 ∧ (5 : Int) ≤ 10) :=
  ⟨rfl, C3_window_membership [⟨"P", [⟨"s", 5⟩]⟩] 0 10 [⟨"P", "s", 5⟩] rfl
    ⟨"P", "s", 5⟩⟩

/-! ## Claim C8: empty enumeration -/

/-- C8 counterexample: over an archive root with zero `{project}/arc001`
directories the claim expects an empty sequence and no error, but the
unexpanded glob makes `find` exit nonzero, so `subprocess.check_output`
raises `CalledProcessError` instead of returning an empty list. -/
theorem C8_counterexample :
    query_sessions ([] : Snapshot) 0 10 =
      Except.error "CalledProcessError: find: '/data/xnat/archive/*/arc001': No such file or directory" ∧
    ∀ dirs : List FoundDir, query_sessions ([] : Snapshot) 0 10 ≠ Except.ok dirs := by
  refine ⟨rfl, ?_⟩
  intro dirs h
  simp [query_sessions] at h

/-- C8 (amended): provided at least one `{project}/arc001` directory exists,
a window matching no session yields the empty sequence without error; only
the zero-`{project}/arc001` case raises. -/
theorem C8_empty_window (snap : Snapshot) (startT endT : Int)
    (hne : snap ≠ [])
    (hno : ∀ p ∈ snap, ∀ s ∈ p.sessions, ¬ (startT < s.mtime ∧ s.mtime ≤ endT)) :
    query_sessions snap startT endT = Except.ok [] := by
  unfold query_sessions
  rw [if_neg (by simpa [List.isEmpty_iff] using hne)]
  have : ∀ p ∈ globSort snap,
      (p.sessions.filter fun s => inWindow startT endT s.mtime).map
        (fun s => ({ project := p.project, session := s.name, mtime := s.mtime } : FoundDir)) = [] := by
    intro p hp
    have hpmem : p ∈ snap := mem_globSort.mp hp
    have : p.sessions.filter (fun s => inWindow startT endT s.mtime) = [] := by
      rw [List.filter_eq_nil_iff]
      intro s hs
      intro hw
      exact hno p hpmem s hs (inWindow_iff.mp hw)
    rw [this, List.map_nil]
  rw [List.flatMap_eq_nil_iff.mpr this]

/-- C8 witness: one project whose only session (mtime `50`) lies outside the
window `(0, 10]` — enumeration returns the empty list, no error. -/
theorem C8_empty_window_witness :
    query_sessions [⟨"P", [⟨"s", 50⟩]⟩] 0 10 = Except.ok [] :=
  C8_empty_window _ 0 10 (by decide) (by decide)

end OrphanedScans

namespace OrphanedScans

/-! ## Sorting lemmas for the glob expansion -/

theorem charsLe_refl : ∀ l : List Char, charsLe l l = true := by
  intro l
  induction l with
  | nil => rfl
  | cons a l ih => simp [charsLe, lt_irrefl, ih]

theorem charsLe_total : ∀ a b : List Char, charsLe a b = true ∨ charsLe b a = true := by
  intro a
  induction a with
  | nil => intro b; left; rfl
  | cons x xs ih =>
    intro b
    cases b with
    | nil => right; rfl
    | cons y ys =>
      rcases lt_trichotomy x y with hxy | rfl | hyx
      · left; simp [charsLe, hxy]
      · rcases ih ys with h | h
        · left; simp [charsLe, lt_irrefl, h]
        · right; simp [charsLe, lt_irrefl, h]
      · right; simp [charsLe, hyx]

theorem charsLe_trans : ∀ a b c : List Char,
    charsLe a b = true → charsLe b c = true → charsLe a c = true := by
  intro a
  induction a with
  | nil => intro b c _ _; rfl
  | cons x xs ih =>
    intro b c h1 h2
    cases b with
    | nil => simp [charsLe] at h1
    | cons y ys =>
      cases c with
      | nil => simp [charsLe] at h2
      | cons z zs =>
        rcases lt_trichotomy x y with hxy | rfl | hyx
        · rcases lt_trichotomy y z with hyz | rfl | hzy
          · simp [charsLe, lt_trans hxy hyz]
          · simp [charsLe, hxy]
          · simp [charsLe, hzy, lt_asymm hzy] at h2
        · rcases lt_trichotomy x z with hxz | rfl | hzx
          · simp [charsLe, hxz]
          · simp [charsLe, lt_irrefl] at h1 h2 ⊢
            exact ih ys zs h1 h2
          · simp [charsLe, hzx, lt_asymm hzx] at h2
        · simp [charsLe, hyx, lt_asymm hyx] at h1

theorem strLe_total (a b : String) : strLe a b = true ∨ strLe b a = true :=
  charsLe_total a.data b.data

theorem strLe_trans {a b c : String} (h1 : strLe a b = true)
    (h2 : strLe b c = true) : strLe a c = true :=
  charsLe_trans a.data b.data c.data h1 h2

theorem projLe_trans {a b c : ProjDir} (h1 : projLe a b) (h2 : projLe b c) :
    projLe a c :=
  strLe_trans h1 h2

theorem pairwise_globInsert {a : ProjDir} {l : List ProjDir}
    (h : l.Pairwise projLe) : (globInsert a l).Pairwise projLe := by
  induction l with
  | nil => exact List.pairwise_singleton _ _
  | cons b l ih =>
    rcases List.pairwise_cons.mp h with ⟨hb, hl⟩
    simp only [globInsert]
    cases hab : globLe a b
    · refine List.pairwise_cons.mpr ⟨?_, ih hl⟩
      intro x hx
      rcases mem_globInsert.mp hx with rfl | hx
      · rcases strLe_total (arcPath x.project) (arcPath b.project) with h | h
        · exact absurd h (by simpa [globLe] using hab)
        · exact h
      · exact hb x hx
    · refine List.pairwise_cons.mpr ⟨?_, h⟩
      intro x hx
      rcases List.mem_cons.mp hx with rfl | hx
      · exact hab
      · exact projLe_trans hab (hb x hx)

theorem pairwise_globSort (l : List ProjDir) : (globSort l).Pairwise projLe := by
  induction l with
  | nil => exact List.Pairwise.nil
  | cons a l ih => exact pairwise_globInsert ih

theorem pairwise_flatMap_key {l : List ProjDir} (f : ProjDir → List FoundDir)
    (hf : ∀ p, ∀ x ∈ f p, x.project = p.project)
    (h : l.Pairwise projLe) :
    (l.flatMap f).Pairwise
      fun a b => strLe (arcPath a.project) (arcPath b.project) = true := by
  induction l with
  | nil => simp
  | cons p l ih =>
    rcases List.pairwise_cons.mp h with ⟨hp, hl⟩
    rw [List.flatMap_cons, List.pairwise_append]
    refine ⟨?_, ih hl, ?_⟩
    · refine List.pairwise_of_forall_mem_list ?_
      intro x hx y hy
      rw [hf p x hx, hf p y hy]
      exact charsLe_refl _
    · intro x hx y hy
      rcases List.mem_flatMap.mp hy with ⟨q, hq, hyq⟩
      rw [hf p x hx, hf q y hyq]
      exact hp q hq

theorem mkRecord_project (resolver : Resolver) (d : FoundDir) :
    (mkRecord resolver d).project = d.project := rfl

theorem mkRecord_session (resolver : Resolver) (d : FoundDir) :
    (mkRecord resolver d).session = d.session := rfl

theorem mkRecord_metadata_xnat2 (resolver : Resolver) (d : FoundDir) :
    (mkRecord resolver d).metadata_xnat2 =
      presenceBool (query_xnat_metadata
        (resolver primaryInstance d.project d.session)) := rfl

theorem mkRecord_metadata_xnat (resolver : Resolver) (d : FoundDir) :
    (mkRecord resolver d).metadata_xnat =
      presenceBool (query_xnat_metadata
        (resolver "https://xnat.bu.edu" d.project d.session)) := rfl

theorem find_sessions_ok {resolver : Resolver} {snap : Snapshot}
    {startT endT : Int} {l : List SessionRecord}
    (h : find_sessions_and_metadata resolver snap startT endT = Except.ok l) :
    ∃ dirs, query_sessions snap startT endT = Except.ok dirs ∧
      l = dirs.map (mkRecord resolver) := by
  unfold find_sessions_and_metadata at h
  cases hq : query_sessions snap startT endT with
  | error e => rw [hq] at h; exact absurd h (by simp [Except.map])
  | ok dirs =>
    rw [hq] at h
    simp only [Except.map] at h
    exact ⟨dirs, rfl, (Except.ok.inj h).symm⟩

end OrphanedScans

namespace OrphanedScans

/-! ## Claim C6: report ordering -/

/-- C6 counterexample: the claim states records come out in lexicographic
(project, session) order.  With one project whose `arc001` directory lists
its sessions in readdir order `["b", "a"]`, both in the window, the report
order is `b` before `a`: `find` does not sort a directory's entries, so the
output violates lexicographic session order. -/
theorem C6_counterexample :
    find_sessions_and_metadata (fun _ _ _ => XResponse.notFound)
        [⟨"P", [⟨"b", 5⟩, ⟨"a", 5⟩]⟩] 0 10 =
      Except.ok
        [⟨"P", "b", "/data/xnat/archive/P/arc001/b", 5, false, false⟩,
         ⟨"P", "a", "/data/xnat/archive/P/arc001/a", 5, false, false⟩] ∧
    ¬ ([⟨"P", "b", "/data/xnat/archive/P/arc001/b", 5, false, false⟩,
        ⟨"P", "a", "/data/xnat/archive/P/arc001/a", 5, false, false⟩] :
        List SessionRecord).Pairwise lexByProjSess := by
  refine ⟨rfl, ?_⟩
  intro hpw
  rcases List.pairwise_cons.mp hpw with ⟨hb, -⟩
  rcases hb _ (List.mem_cons_self _ _) with hlt | ⟨-, hle⟩
  · exact absurd hlt (lt_irrefl _)
  · exact absurd hle (not_le.mpr (String.lt_iff_toList_lt.mpr (by decide)))

/-- C6 (amended): the output is a deterministic pure function of the
snapshot and the resolver; records are grouped by project in the glob's
sorted pathname order (lexicographic on the `{project}/arc001` paths), but
sessions within one project keep the directory-listing order and are not
sorted. -/
theorem C6_project_order (resolver : Resolver) (snap : Snapshot)
    (startT endT : Int) (l : List SessionRecord)
    (h : find_sessions_and_metadata resolver snap startT endT = Except.ok l) :
    l.Pairwise fun a b => strLe (arcPath a.project) (arcPath b.project) = true := by
  rcases find_sessions_ok h with ⟨dirs, hq, rfl⟩
  unfold query_sessions at hq
  split at hq
  · exact absurd hq (by simp)
  · obtain rfl := Except.ok.inj hq
    rw [List.pairwise_map]
    have := pairwise_flatMap_key
      (fun p => (p.sessions.filter fun s => inWindow startT endT s.mtime).map
        fun s => ({ project := p.project, session := s.name, mtime := s.mtime } : FoundDir))
      (fun p x hx => by
        rcases List.mem_map.mp hx with ⟨s, -, rfl⟩
        rfl)
      (pairwise_globSort snap)
    exact this.imp fun hab => hab

/-- Every record of a successful run is `mkRecord` of an enumerated
directory. -/
theorem mem_find_sessions {resolver : Resolver} {snap : Snapshot}
    {startT endT : Int} {l : List SessionRecord}
    (h : find_sessions_and_metadata resolver snap startT endT = Except.ok l)
    {r : SessionRecord} (hr : r ∈ l) :
    ∃ d : FoundDir, r = mkRecord resolver d ∧
      d.project = r.project ∧ d.session = r.session := by
  rcases find_sessions_ok h with ⟨dirs, hq, rfl⟩
  rcases List.mem_map.mp hr with ⟨d, hd, rfl⟩
  exact ⟨d, rfl, rfl, rfl⟩

/-- C6 witness: two projects, the glob orders `A` before `B`; the instance
of the ordering theorem at that snapshot. -/
theorem C6_project_order_witness :
    ([⟨"A", "s2", "/data/xnat/archive/A/arc001/s2", 5, false, false⟩,
      ⟨"B", "s1", "/data/xnat/archive/B/arc001/s1", 5, false, false⟩] :
      List SessionRecord).Pairwise
        (fun a b => strLe (arcPath a.project) (arcPath b.project) = true) :=
  C6_project_order (fun _ _ _ => XResponse.notFound)
    [⟨"B", [⟨"s1", 5⟩]⟩, ⟨"A", [⟨"s2", 5⟩]⟩] 0 10
    [⟨"A", "s2", "/data/xnat/archive/A/arc001/s2", 5, false, false⟩,
     ⟨"B", "s1", "/data/xnat/archive/B/arc001/s1", 5, false, false⟩] rfl

/-! ## Claim C1: the primary instance alone determines the classification -/

/-- C1: orphan classification is determined solely by the primary
(first-configured) instance.  Two resolvers agreeing on the primary instance
produce the same primary-presence column and the same orphan count; a
session with primary presence `Absent` (404) is counted as an orphan
whatever the secondary returned, and one `Present` on the primary (success
with truthy body) is not. -/
theorem C1_primary_only (resolver resolver' : Resolver) (snap : Snapshot)
    (startT endT : Int) (l l' : List SessionRecord)
    (hagree : ∀ proj sess, resolver primaryInstance proj sess
                         = resolver' primaryInstance proj sess)
    (h : find_sessions_and_metadata resolver snap startT endT = Except.ok l)
    (h' : find_sessions_and_metadata resolver' snap startT endT = Except.ok l') :
    num_orphans l = num_orphans l' ∧
    (∀ r ∈ l, r.metadata_xnat2 = presenceBool
      (query_xnat_metadata (resolver primaryInstance r.project r.session))) ∧
    (∀ r ∈ l, resolver primaryInstance r.project r.session = XResponse.notFound →
      isOrphanRecord r) ∧
    (∀ r ∈ l, ∀ body,
      resolver primaryInstance r.project r.session = XResponse.success body →
      body.truthy = true → ¬ isOrphanRecord r) := by
  have hrec : ∀ d : FoundDir,
      (mkRecord resolver d).metadata_xnat2 =
        (mkRecord resolver' d).metadata_xnat2 := by
    intro d
    rw [mkRecord_metadata_xnat2, mkRecord_metadata_xnat2, hagree]
  refine ⟨?_, ?_, ?_, ?_⟩
  · rcases find_sessions_ok h with ⟨dirs, hq, rfl⟩
    rcases find_sessions_ok h' with ⟨dirs', hq', rfl⟩
    rw [hq] at hq'
    obtain rfl := Except.ok.inj hq'
    unfold num_orphans
    rw [List.filter_map, List.filter_map, List.length_map, List.length_map]
    congr 1
    exact List.filter_congr fun d _ => by
      simp only [Function.comp]
      rw [hrec d]
  · intro r hr
    rcases mem_find_sessions h hr with ⟨d, rfl, hp, hs⟩
    rw [mkRecord_metadata_xnat2, hp, hs]
  · intro r hr habs
    rcases mem_find_sessions h hr with ⟨d, rfl, hp, hs⟩
    rw [← hp, ← hs] at habs
    show (mkRecord resolver d).metadata_xnat2 = false
    rw [mkRecord_metadata_xnat2, habs]
    rfl
  · intro r hr body hsucc htruthy
    rcases mem_find_sessions h hr with ⟨d, rfl, hp, hs⟩
    rw [← hp, ← hs] at hsucc
    intro hfalse
    have hx : (mkRecord resolver d).metadata_xnat2 = false := hfalse
    rw [mkRecord_metadata_xnat2, hsucc] at hx
    simp only [query_xnat_metadata, presenceBool] at hx
    rw [htruthy] at hx
    exact Bool.noConfusion hx

/-- C1 witness: the classification theorem instantiated on one session, a
resolver that knows the session only on the secondary instance and a
resolver that knows it nowhere — the orphan counts agree. -/
theorem C1_primary_only_witness :
    num_orphans
      [⟨"ProjectA", "Sess1", "/data/xnat/archive/ProjectA/arc001/Sess1",
        5, false, true⟩] =
    num_orphans
      [⟨"ProjectA", "Sess1", "/data/xnat/archive/ProjectA/arc001/Sess1",
        5, false, false⟩] :=
  (C1_primary_only
    (fun url _ _ => if url = "https://xnat.bu.edu"
      then XResponse.success (Json.obj [("ID", Json.str "x")])
      else XResponse.notFound)
    (fun _ _ _ => XResponse.notFound)
    [⟨"ProjectA", [⟨"Sess1", 5⟩]⟩] 0 10
    [⟨"ProjectA", "Sess1", "/data/xnat/archive/ProjectA/arc001/Sess1",
      5, false, true⟩]
    [⟨"ProjectA", "Sess1", "/data/xnat/archive/ProjectA/arc001/Sess1",
      5, false, false⟩]
    (fun _ _ => rfl) rfl rfl).1

/-! ## Claim C2: no distinct Unknown value -/

/-- C2 counterexample: the claim states non-404 failures yield a third value
`Unknown`, distinct from `Absent`, and that such a session is classified
Indeterminate, not Orphaned.  In the code `query_xnat_metadata` returns
`None` for a 500 and a timeout exactly as for a 404, and a session whose
primary lookup failed with a 500 is counted in the orphan total. -/
theorem C2_counterexample :
    query_xnat_metadata (XResponse.httpError 500) =
      query_xnat_metadata XResponse.notFound ∧
    query_xnat_metadata (XResponse.netError "timeout") =
      query_xnat_metadata XResponse.notFound ∧
    find_sessions_and_metadata (fun _ _ _ => XResponse.httpError 500)
        [⟨"ProjectA", [⟨"Sess1", 5⟩]⟩] 0 10 =
      Except.ok
        [⟨"ProjectA", "Sess1", "/data/xnat/archive/ProjectA/arc001/Sess1",
          5, false, false⟩] ∧
    num_orphans
      [⟨"ProjectA", "Sess1", "/data/xnat/archive/ProjectA/arc001/Sess1",
        5, false, false⟩] = 1 :=
  ⟨rfl, rfl, rfl, rfl⟩

/-- C2 (amended): the resolver is two-valued — a successful lookup returns
the parsed body, while a 404 and every other failure (HTTP error, timeout,
malformed response) alike return `None`; a session whose primary lookup did
not succeed, for whatever reason, has primary presence `False` and is
counted as Orphaned, indistinguishable from a 404. -/
theorem C2_nonsuccess_is_orphaned (resolver : Resolver) (snap : Snapshot)
    (startT endT : Int) (l : List SessionRecord)
    (h : find_sessions_and_metadata resolver snap startT endT = Except.ok l)
    (r : SessionRecord) (hr : r ∈ l)
    (hfail : ∀ body,
      resolver primaryInstance r.project r.session ≠ XResponse.success body) :
    query_xnat_metadata (resolver primaryInstance r.project r.session) = none ∧
    isOrphanRecord r := by
  have hq : query_xnat_metadata (resolver primaryInstance r.project r.session)
      = none := by
    cases hres : resolver primaryInstance r.project r.session with
    | success body => exact absurd hres (hfail body)
    | notFound => rfl
    | httpError code => rfl
    | netError msg => rfl
  refine ⟨hq, ?_⟩
  rcases mem_find_sessions h hr with ⟨d, rfl, hp, hs⟩
  rw [← hp, ← hs] at hq
  show (mkRecord resolver d).metadata_xnat2 = false
  rw [mkRecord_metadata_xnat2, hq]
  rfl

/-- C2 witness: the amended theorem instantiated on one session whose
primary lookup fails with a 500 — the lookup result is `None` and the
record is an orphan. -/
theorem C2_nonsuccess_is_orphaned_witness :
    query_xnat_metadata
      ((fun _ _ _ => XResponse.httpError 500 : Resolver)
        primaryInstance "ProjectA" "Sess1") = none ∧
    isOrphanRecord
      ⟨"ProjectA", "Sess1", "/data/xnat/archive/ProjectA/arc001/Sess1",
       5, false, false⟩ :=
  C2_nonsuccess_is_orphaned (fun _ _ _ => XResponse.httpError 500)
    [⟨"ProjectA", [⟨"Sess1", 5⟩]⟩] 0 10
    [⟨"ProjectA", "Sess1", "/data/xnat/archive/ProjectA/arc001/Sess1",
      5, false, false⟩] rfl
    ⟨"ProjectA", "Sess1", "/data/xnat/archive/ProjectA/arc001/Sess1",
     5, false, false⟩
    (List.mem_singleton.mpr rfl)
    (fun _body hbody => XResponse.noConfusion hbody)

/-! ## Claim C7: a presence entry for every configured instance -/

/-- C7: every record of a run carries a presence value for every configured
instance — the column for each instance is defined and equals the (total)
`bool(...)` of that instance's lookup result, so a failed resolution still
yields a value (`False`), never a missing key. -/
theorem C7_presence_every_instance (resolver : Resolver) (snap : Snapshot)
    (startT endT : Int) (l : List SessionRecord)
    (h : find_sessions_and_metadata resolver snap startT endT = Except.ok l) :
    ∀ r ∈ l, ∀ inst ∈ XNAT_INSTANCES,
      instancePresence r inst = some (presenceBool
        (query_xnat_metadata (resolver inst r.project r.session))) := by
  intro r hr inst hinst
  rcases mem_find_sessions h hr with ⟨d, rfl, -, -⟩
  have : inst = "https://xnat2.bu.edu" ∨ inst = "https://xnat.bu.edu" := by
    simpa [XNAT_INSTANCES] using hinst
  rcases this with rfl | rfl
  · rfl
  · rfl

/-- C7 witness: the totality theorem instantiated on a run whose resolver
always fails with a network error — the record still has a (non-missing)
value for the secondary instance's key. -/
theorem C7_presence_every_instance_witness :
    instancePresence
      ⟨"ProjectA", "Sess1", "/data/xnat/archive/ProjectA/arc001/Sess1",
       5, false, false⟩ "https://xnat.bu.edu" =
      some (presenceBool (query_xnat_metadata
        ((fun _ _ _ => XResponse.netError "timeout" : Resolver)
          "https://xnat.bu.edu" "ProjectA" "Sess1"))) :=
  C7_presence_every_instance (fun _ _ _ => XResponse.netError "timeout")
    [⟨"ProjectA", [⟨"Sess1", 5⟩]⟩] 0 10
    [⟨"ProjectA", "Sess1", "/data/xnat/archive/ProjectA/arc001/Sess1",
      5, false, false⟩] rfl
    ⟨"ProjectA", "Sess1", "/data/xnat/archive/ProjectA/arc001/Sess1",
     5, false, false⟩
    (List.mem_singleton.mpr rfl)
    "https://xnat.bu.edu" (by decide)

/-! ## Claim C10: presence is the truthiness of the parsed body -/

/-- C10: a 2xx lookup whose parsed JSON body is falsy (empty object, empty
array, null) is recorded as not-present: the presence column is the Python
truthiness of the parsed body, so such a session is counted as an orphan
exactly as a 404 is. -/
theorem C10_truthiness (resolver : Resolver) (snap : Snapshot)
    (startT endT : Int) (l : List SessionRecord)
    (h : find_sessions_and_metadata resolver snap startT endT = Except.ok l)
    (r : SessionRecord) (hr : r ∈ l) (body : Json)
    (hb : resolver primaryInstance r.project r.session =
      XResponse.success body) :
    ((Json.obj []).truthy = false ∧ (Json.arr []).truthy = false ∧
      Json.null.truthy = false) ∧
    r.metadata_xnat2 = body.truthy ∧
    (body.truthy = false →
      r.metadata_xnat2 = presenceBool (query_xnat_metadata XResponse.notFound) ∧
      isOrphanRecord r) := by
  rcases mem_find_sessions h hr with ⟨d, rfl, hp, hs⟩
  rw [← hp, ← hs] at hb
  have hx : (mkRecord resolver d).metadata_xnat2 = body.truthy := by
    rw [mkRecord_metadata_xnat2, hb]
    rfl
  refine ⟨⟨rfl, rfl, rfl⟩, hx, ?_⟩
  intro hfalsy
  rw [hfalsy] at hx
  exact ⟨hx, hx⟩

/-- C10 witness: the truthiness theorem instantiated on a resolver that
answers 200 with an empty JSON object — the record's primary presence is
`False` and the session is an orphan. -/
theorem C10_truthiness_witness :
    (⟨"ProjectA", "Sess1", "/data/xnat/archive/ProjectA/arc001/Sess1",
      5, false, false⟩ : SessionRecord).metadata_xnat2 =
      (Json.obj []).truthy ∧
    isOrphanRecord
      ⟨"ProjectA", "Sess1", "/data/xnat/archive/ProjectA/arc001/Sess1",
       5, false, false⟩ :=
  have hmain := C10_truthiness (fun _ _ _ => XResponse.success (Json.obj []))
    [⟨"ProjectA", [⟨"Sess1", 5⟩]⟩] 0 10
    [⟨"ProjectA", "Sess1", "/data/xnat/archive/ProjectA/arc001/Sess1",
      5, false, false⟩] rfl
    ⟨"ProjectA", "Sess1", "/data/xnat/archive/ProjectA/arc001/Sess1",
     5, false, false⟩
    (List.mem_singleton.mpr rfl) (Json.obj []) rfl
  ⟨hmain.2.1, (hmain.2.2 rfl).2⟩

/-! ## Claim C4: no import request after a failed relocate -/

/-- C4: if the relocate step fails, the workflow stops without issuing
the import request; in every invocation the import endpoint is contacted
only after `shutil.move` has succeeded, and the move precedes the POST in
the effect trace. -/
theorem C4_import_only_after_move (args : AdoptArgs) (world : AdoptWorld)
    (fs : List String) :
    (world.moveRaises = true →
      ∀ url, AEffect.httpPost url ∉ (adopt_main args world fs).1) ∧
    (∀ url, AEffect.httpPost url ∈ (adopt_main args world fs).1 →
      (∃ fs', shutil_move world fs args.local_dicom_dir (dest_inbox_dir args)
        = Except.ok fs') ∧
      ∃ pre post, (adopt_main args world fs).1 =
        pre ++ AEffect.httpPost url :: post ∧
        AEffect.move args.local_dicom_dir (dest_inbox_dir args) ∈ pre) := by
  unfold adopt_main
  cases hcred : get_credentials args.config with
  | error e =>
    constructor
    · intro _ url hmem
      simp at hmem
    · intro url hmem
      simp at hmem
  | ok creds =>
    obtain ⟨u, p⟩ := creds
    cases hmv : shutil_move world fs args.local_dicom_dir (dest_inbox_dir args) with
    | error e =>
      constructor
      · intro _ url hmem
        simp at hmem
      · intro url hmem
        simp at hmem
    | ok fs' =>
      have hraise : world.moveRaises = true → False := by
        intro hx
        unfold shutil_move at hmv
        rw [hx] at hmv
        exact absurd hmv (by simp)
      cases himp : world.importResponse with
      | none =>
        dsimp only
        constructor
        · intro hx
          exact (hraise hx).elim
        · intro url hmem
          simp at hmem
          subst hmem
          refine ⟨⟨fs', rfl⟩,
            [.makedirs (dirname (dest_inbox_dir args)),
             .move args.local_dicom_dir (dest_inbox_dir args),
             .output ("Moved " ++ args.local_dicom_dir ++ " to " ++
               dest_inbox_dir args)],
            [.output "ERROR calling API"], rfl, by simp⟩
      | some ct =>
        obtain ⟨code, text⟩ := ct
        dsimp only
        by_cases hacc : code = 200 ∨ code = 202
        · rw [if_pos hacc]
          constructor
          · intro hx
            exact (hraise hx).elim
          · intro url hmem
            simp at hmem
            subst hmem
            refine ⟨⟨fs', rfl⟩,
              [.makedirs (dirname (dest_inbox_dir args)),
               .move args.local_dicom_dir (dest_inbox_dir args),
               .output ("Moved " ++ args.local_dicom_dir ++ " to " ++
                 dest_inbox_dir args)],
              [.output "Import request successful.", .output text],
              rfl, by simp⟩
        · rw [if_neg hacc]
          constructor
          · intro hx
            exact (hraise hx).elim
          · intro url hmem
            simp at hmem
            subst hmem
            refine ⟨⟨fs', rfl⟩,
              [.makedirs (dirname (dest_inbox_dir args)),
               .move args.local_dicom_dir (dest_inbox_dir args),
               .output ("Moved " ++ args.local_dicom_dir ++ " to " ++
                 dest_inbox_dir args)],
              [.output ("Import request failed (" ++ toString code ++ "): " ++
                text)],
              rfl, by simp⟩

/-- C4 witness: a raising move on a concrete invocation — the trace contains
no POST to any URL. -/
theorem C4_import_only_after_move_witness :
    AEffect.httpPost "http://localhost:8080/x" ∉
      (adopt_main
        ⟨"/data/local/S1", "P", "http://localhost:8080", "/data/xnat/inbox",
         some ⟨[("auth", [("username", "u"), ("password", "p")])]⟩⟩
        ⟨true, some (200, "ok")⟩ ["/data/local/S1"]).1 :=
  (C4_import_only_after_move
    ⟨"/data/local/S1", "P", "http://localhost:8080", "/data/xnat/inbox",
     some ⟨[("auth", [("username", "u"), ("password", "p")])]⟩⟩
    ⟨true, some (200, "ok")⟩ ["/data/local/S1"]).1 rfl
    "http://localhost:8080/x"

/-! ## Claim C5: a relocated directory is never moved back -/

/-- C5: after a successful relocate the data lives at
`{inbox_base}/{project}/{basename(local_dir)}` and no longer at its original
path; when the import step then fails (bad status or exception) the
directory stays at the inbox path — nothing moves it back — and the run's
output reports the remote status (failure line) and the inbox path (the
`Moved ... to ...` line). -/
theorem C5_relocated_not_reverted (args : AdoptArgs) (world : AdoptWorld)
    (fs : List String)
    (hcred : ∃ creds, get_credentials args.config = Except.ok creds)
    (hnodup : fs.Nodup)
    (hmv : world.moveRaises = false)
    (hsrc : args.local_dicom_dir ∈ fs)
    (hne : args.local_dicom_dir ≠ dest_inbox_dir args)
    (hfail : importFailed world) :
    dest_inbox_dir args ∈ (adopt_main args world fs).2 ∧
    args.local_dicom_dir ∉ (adopt_main args world fs).2 ∧
    AEffect.output ("Moved " ++ args.local_dicom_dir ++ " to " ++
      dest_inbox_dir args) ∈ (adopt_main args world fs).1 ∧
    (∀ code text, world.importResponse = some (code, text) →
      AEffect.output ("Import request failed (" ++ toString code ++ "): " ++
        text) ∈ (adopt_main args world fs).1) ∧
    (world.importResponse = none →
      AEffect.output "ERROR calling API" ∈ (adopt_main args world fs).1) := by
  obtain ⟨⟨u, p⟩, he⟩ := hcred
  have hmove : shutil_move world fs args.local_dicom_dir (dest_inbox_dir args)
      = Except.ok (dest_inbox_dir args :: fs.erase args.local_dicom_dir) := by
    unfold shutil_move
    rw [hmv, if_neg (by simp), if_pos hsrc]
  have hout : args.local_dicom_dir ∉
      (dest_inbox_dir args :: fs.erase args.local_dicom_dir) := by
    intro hx
    rcases List.mem_cons.mp hx with heq | hx
    · exact hne heq
    · exact (List.Nodup.not_mem_erase hnodup) hx
  unfold adopt_main
  rw [he, hmove]
  dsimp only
  cases himp : world.importResponse with
  | none =>
    dsimp only
    refine ⟨List.mem_cons_self _ _, hout, by simp, ?_, by simp⟩
    intro code text hct
    exact absurd hct (by simp)
  | some ct =>
    obtain ⟨code, text⟩ := ct
    have hne' : ¬ (code = 200 ∨ code = 202) := by
      unfold importFailed at hfail
      rw [himp] at hfail
      rintro (h200 | h202)
      · exact hfail.1 h200
      · exact hfail.2 h202
    dsimp only
    rw [if_neg hne']
    refine ⟨List.mem_cons_self _ _, hout, by simp, ?_, ?_⟩
    · intro code' text' hct
      obtain ⟨rfl, rfl⟩ : code = code' ∧ text = text' :=
        ⟨congrArg Prod.fst (Option.some.inj hct),
         congrArg Prod.snd (Option.some.inj hct)⟩
      simp
    · intro hnone
      exact absurd hnone (by simp)

/-- C5 witness: a concrete adoption whose import answers 500 — the data is
at the inbox path, gone from the original path, and both the moved-to line
and the failure line are in the output. -/
theorem C5_relocated_not_reverted_witness :
    dest_inbox_dir
      ⟨"/data/local/S1", "P", "http://localhost:8080", "/data/xnat/inbox",
       some ⟨[("auth", [("username", "u"), ("password", "p")])]⟩⟩ ∈
      (adopt_main
        ⟨"/data/local/S1", "P", "http://localhost:8080", "/data/xnat/inbox",
         some ⟨[("auth", [("username", "u"), ("password", "p")])]⟩⟩
        ⟨false, some (500, "server error")⟩ ["/data/local/S1"]).2 ∧
    "/data/local/S1" ∉
      (adopt_main
        ⟨"/data/local/S1", "P", "http://localhost:8080", "/data/xnat/inbox",
         some ⟨[("auth", [("username", "u"), ("password", "p")])]⟩⟩
        ⟨false, some (500, "server error")⟩ ["/data/local/S1"]).2 :=
  have hmain := C5_relocated_not_reverted
    ⟨"/data/local/S1", "P", "http://localhost:8080", "/data/xnat/inbox",
     some ⟨[("auth", [("username", "u"), ("password", "p")])]⟩⟩
    ⟨false, some (500, "server error")⟩ ["/data/local/S1"]
    ⟨("u", "p"), rfl⟩ (by decide) rfl (by decide) (by decide)
    ⟨by decide, by decide⟩
  ⟨hmain.1, hmain.2.1⟩

/-! ## Claim C9: credential failure aborts before any side effect -/

/-- C9: a missing credentials file, a missing `[auth]` section or a missing
`username`/`password` key makes both credential readers fail, and on that
failure each entry point aborts before any side effect: the adoption run
moves nothing, posts nothing and leaves the filesystem unchanged, and the
reconciliation run enumerates nothing, writes no CSV and sends no email —
each only prints the error. -/
theorem C9_creds_failure_aborts (config : Option IniConfig)
    (h : credsBroken config) :
    (∃ e, get_credentials config = Except.error e) ∧
    (∃ e, read_xnat_auth config = Except.error e) ∧
    (∀ args world fs, args.config = config →
      (adopt_main args world fs).2 = fs ∧
      ∀ eff ∈ (adopt_main args world fs).1, ∃ msg, eff = AEffect.output msg) ∧
    (∀ resolver snap startT endT,
      ∀ eff ∈ orphan_main config resolver snap startT endT,
        ∃ msg, eff = OEffect.output msg) := by
  have hget : ∃ e, get_credentials config = Except.error e := by
    cases config with
    | none => exact ⟨_, rfl⟩
    | some c =>
      cases hu : c.get "auth" "username" with
      | none =>
        refine ⟨"Missing key in [auth] section of config file.", ?_⟩
        unfold get_credentials
        dsimp only
        rw [hu]
      | some uname =>
        cases hp : c.get "auth" "password" with
        | none =>
          refine ⟨"Missing key in [auth] section of config file.", ?_⟩
          unfold get_credentials
          dsimp only
          rw [hu, hp]
        | some pass =>
          exfalso
          rcases h with hs | h1 | h1
          · have hx : c.get "auth" "username" = none := by
              unfold IniConfig.get
              rw [hs]
              rfl
            rw [hx] at hu
            exact Option.noConfusion hu
          · rw [h1] at hu
            exact Option.noConfusion hu
          · rw [h1] at hp
            exact Option.noConfusion hp
  have hread : ∃ e, read_xnat_auth config = Except.error e := by
    cases config with
    | none => exact ⟨_, rfl⟩
    | some c =>
      cases hs : c.sections.lookup "auth" with
      | none =>
        refine ⟨"Section [auth] not found in auth file.", ?_⟩
        unfold read_xnat_auth
        dsimp only
        rw [hs]
        rfl
      | some opts =>
        cases hu : c.get "auth" "username" with
        | none =>
          refine ⟨"Missing username or password in auth file", ?_⟩
          unfold read_xnat_auth
          dsimp only
          rw [hs, hu]
          cases c.get "auth" "password" <;> rfl
        | some uname =>
          cases hp : c.get "auth" "password" with
          | none =>
            refine ⟨"Missing username or password in auth file", ?_⟩
            unfold read_xnat_auth
            dsimp only
            rw [hs, hu, hp]
            rfl
          | some pass =>
            exfalso
            rcases h with h1 | h1 | h1
            · rw [h1] at hs
              exact Option.noConfusion hs
            · rw [h1] at hu
              exact Option.noConfusion hu
            · rw [h1] at hp
              exact Option.noConfusion hp
  refine ⟨hget, hread, ?_, ?_⟩
  · intro args world fs harg
    rcases hget with ⟨e, he⟩
    rw [← harg] at he
    unfold adopt_main
    rw [he]
    refine ⟨rfl, ?_⟩
    intro eff heff
    simp at heff
    exact ⟨_, heff⟩
  · intro resolver snap startT endT eff heff
    rcases hread with ⟨e, he⟩
    unfold orphan_main at heff
    rw [he] at heff
    simp at heff
    exact ⟨_, heff⟩

/-- C9 witness: the abort theorem instantiated at a missing credentials
file. -/
theorem C9_creds_failure_aborts_witness :
    (∃ e, get_credentials (none : Option IniConfig) = Except.error e) ∧
    (∃ e, read_xnat_auth (none : Option IniConfig) = Except.error e) :=
  ⟨(C9_creds_failure_aborts none trivial).1,
   (C9_creds_failure_aborts none trivial).2.1⟩

end OrphanedScans
